import Mathlib

/-! D3D12 Triangle: the bring-up sequence and the fence wait.

A shallow embedding of `D3D12 Triangle/main.cpp`.  Every function of the file is a
state-passing program over the process-wide `Globals` and a trace of the platform
calls it makes.  The platform (window system, DXGI, D3D12, the GPU) is a record of
response functions, `Backend`; the theorems quantify over it.
-/

namespace D3D12Triangle

/-! ## Platform types and constants -/

/-- Interface pointers, window handles and event handles; the null pointer is `0`. -/
abbrev Handle := Nat

/-- The null pointer. -/
def nullptr : Handle := 0

/-- The `HRESULT` of a platform call, as a signed 32-bit value. -/
abbrev HRESULT := Int

/-- Modelled from the spec: the success code `S_OK`; the constant is declared in the
platform header `winerror.h`, which is not in the repository, and has the header's value. -/
def S_OK : HRESULT := 0

/-- Modelled from the spec: the "not found" sentinel that ends adapter enumeration; the
constant is declared in the platform header `winerror.h`, which is not in the
repository, and has the header's value, `0x887A0002` as a signed 32-bit value. -/
def DXGI_ERROR_NOT_FOUND : HRESULT := -2005270526

/-- Modelled from the spec: a failing `HRESULT`, for the backends on which a creation call
fails; the constant is declared in the platform header `winerror.h`, which is not in the
repository, and has the header's value. -/
def E_FAIL : HRESULT := -2147467259

/-- Modelled from the spec: the macro `SUCCEEDED(hr)` of the platform header `winerror.h`,
which is not in the repository: `hr >= 0`. -/
def SUCCEEDED (hr : HRESULT) : Bool := decide (0 ≤ hr)

/-- Modelled from the spec: the macro `FAILED(hr)` of the platform header `winerror.h`,
which is not in the repository: `hr < 0`. -/
def FAILED (hr : HRESULT) : Bool := decide (hr < 0)

/-- Modelled from the spec: the designated failure exit code; the macro is declared in
the standard header `<cstdlib>`, which is not in the repository. -/
def EXIT_FAILURE : Int := 1

/-- Modelled from the spec: the fixed minimum feature level; the enumerator is declared in
the platform header `d3dcommon.h`, which is not in the repository, and has the header's
value. -/
def D3D_FEATURE_LEVEL_12_1 : Nat := 0xc100

/-- Modelled from the spec: the lower, more permissive feature level; the enumerator is
declared in the platform header `d3dcommon.h`, which is not in the repository, and has
the header's value. -/
def D3D_FEATURE_LEVEL_11_0 : Nat := 0xb000

/-- Modelled from the spec: the direct command-list type; the enumerator is declared in
the platform header `d3d12.h`, which is not in the repository, and has the header's
value. -/
def D3D12_COMMAND_LIST_TYPE_DIRECT : Nat := 0

/-- Modelled from the spec: the 8-bit-per-channel unsigned-normalized format; the
enumerator is declared in the platform header `dxgiformat.h`, which is not in the
repository, and has the header's value. -/
def DXGI_FORMAT_R8G8B8A8_UNORM : Nat := 28

/-- Modelled from the spec: no scaling; the enumerator is declared in the platform header
`dxgi1_2.h`, which is not in the repository, and has the header's value. -/
def DXGI_SCALING_NONE : Nat := 1

/-- Modelled from the spec: render-target-output usage; the constant is declared in the
platform header `dxgi.h`, which is not in the repository, and has the header's value. -/
def DXGI_USAGE_RENDER_TARGET_OUTPUT : Nat := 0x20

/-- Modelled from the spec: the discard swap effect; the enumerator is declared in the
platform header `dxgi.h`, which is not in the repository, and has the header's value. -/
def DXGI_SWAP_EFFECT_DISCARD : Nat := 0

/-- Modelled from the spec: the default alpha mode; the enumerator is declared in the
platform header `dxgi1_2.h`, which is not in the repository, and has the header's value. -/
def DXGI_ALPHA_MODE_UNSPECIFIED : Nat := 0

/-- Modelled from the spec: no stereo; the macro `FALSE` is declared in the platform
header `minwindef.h`, which is not in the repository, and has the header's value. -/
def FALSE : Nat := 0

/-- The number of values of a `UINT`. -/
def UINT_SIZE : Nat := 2 ^ 32

/-- The number of values of a `UINT64`. -/
def UINT64_SIZE : Nat := 2 ^ 64

/-- The platform structure `DXGI_SAMPLE_DESC`; the defaults are the zero initialisation. -/
structure DXGI_SAMPLE_DESC where
  Count : Nat := 0
  Quality : Nat := 0
deriving DecidableEq

/-- The platform structure `DXGI_SWAP_CHAIN_DESC1`; the defaults are the zero
initialisation `= {}`. -/
structure DXGI_SWAP_CHAIN_DESC1 where
  Width : Nat := 0
  Height : Nat := 0
  Format : Nat := 0
  Stereo : Nat := 0
  SampleDesc : DXGI_SAMPLE_DESC := {}
  BufferUsage : Nat := 0
  BufferCount : Nat := 0
  Scaling : Nat := 0
  SwapEffect : Nat := 0
  AlphaMode : Nat := 0
  Flags : Nat := 0
deriving DecidableEq

/-- The platform structure `D3D12_COMMAND_QUEUE_DESC`; the defaults are the zero
initialisation `= {}`. -/
structure D3D12_COMMAND_QUEUE_DESC where
  Type_ : Nat := 0
  Priority : Int := 0
  Flags : Nat := 0
  NodeMask : Nat := 0
deriving DecidableEq

/-! ## The platform as a record of responses, and the trace of calls -/

/-- One platform call as the program makes it: its arguments and what it answered. -/
inductive Call where
  | CrtSetDbgFlag
  | RegisterClass (className : String)
  | CreateWindowEx (className : String) (width height : Nat) (hinstance out : Handle)
  | ShowWindow (window : Handle) (cmd_show : Int)
  | CreateDXGIFactory (out : Handle)
  | CreateDXGIFactory2 (flags : Nat) (out : Handle)
  | EnumAdapters1 (factory : Handle) (index : Nat) (hr : HRESULT) (out : Handle)
  | EnumWarpAdapter (factory : Handle) (out : Handle)
  | D3D12CreateDevice_probe (adapter : Handle) (level : Nat) (hr : HRESULT)
  | D3D12CreateDevice (adapter : Handle) (level : Nat) (out : Handle)
  | CreateCommandQueue (device : Handle) (desc : D3D12_COMMAND_QUEUE_DESC) (out : Handle)
  | CreateCommandAllocator (device : Handle) (kind : Nat) (out : Handle)
  | CreateCommandList (device : Handle) (nodeMask kind : Nat)
      (allocator initialState out : Handle)
  | Close (cmd_list : Handle)
  | CreateSwapChainForHwnd (factory queue window : Handle) (desc : DXGI_SWAP_CHAIN_DESC1)
      (fullscreenDesc restrictOutput : Handle) (hr : HRESULT) (out : Handle)
  | Release (ptr : Handle)
  | Signal (queue fence : Handle) (value : Nat)
  | GetCompletedValue (fence : Handle) (value : Nat)
  | SetEventOnCompletion (fence : Handle) (value : Nat) (event : Handle)
  | WaitForSingleObject (event : Handle)
  | OutputDebugString (msg : String)
deriving DecidableEq

/-- The answers of the platform.  A creation call answers with the handle it stores in
its output parameter (`nullptr` when it fails); where the program reads the `HRESULT`
the answer carries it too.  `D3D12CreateDevice_probe` is `D3D12CreateDevice` with a
null output parameter.  `GetCompletedValue fence tick` is the fence's completed value
at a tick of the GPU timeline.  `WaitForSingleObject event fence value now` is the tick
at which a wait started at `now` on `event`, registered for `value` on `fence`, returns;
`none` when it never returns. -/
structure Backend where
  CreateWindowEx : String → Nat → Nat → Handle → Handle
  CreateDXGIFactory : Handle
  CreateDXGIFactory2 : Nat → Handle
  EnumAdapters1 : Handle → Nat → HRESULT × Handle
  EnumWarpAdapter : Handle → Handle
  D3D12CreateDevice_probe : Handle → Nat → HRESULT
  D3D12CreateDevice : Handle → Nat → Handle
  CreateCommandQueue : Handle → D3D12_COMMAND_QUEUE_DESC → Handle
  CreateCommandAllocator : Handle → Nat → Handle
  CreateCommandList : Handle → Nat → Nat → Handle → Handle → Handle
  CreateSwapChainForHwnd : Handle → Handle → Handle → DXGI_SWAP_CHAIN_DESC1 → HRESULT × Handle
  GetCompletedValue : Handle → Nat → Nat
  WaitForSingleObject : Handle → Handle → Nat → Nat → Option Nat

/-! ## Program state -/

/-- The global variables, `struct Globals`, with their initialisers. -/
structure Globals where
  device : Handle := nullptr
  cmd_queue : Handle := nullptr
  cmd_allocator : Handle := nullptr
  cmd_list : Handle := nullptr
  fence : Handle := nullptr
  fence_event : Handle := nullptr
  fence_value : Nat := 1
  swap_chain : Handle := nullptr
  render_targets_heap : Handle := nullptr
  render_targets : List Handle := [nullptr]
deriving DecidableEq

/-- The constant `Globals::NUM_SWAP_BUFFERS`. -/
def Globals.NUM_SWAP_BUFFERS : Nat := 1

/-- The state of the process: the global `g`, the calls made so far, oldest first, and
the tick of the GPU timeline. -/
structure State where
  g : Globals := {}
  trace : List Call := []
  clock : Nat := 0
deriving DecidableEq

/-- What a C++ `throw` expression throws: `runtime_error` is an object of class
`std::runtime_error` thrown by value, `exception_ptr` a pointer to an exception
object. -/
inductive Thrown where
  | runtime_error (what : String)
  | exception_ptr (what : String)
deriving DecidableEq

/-- How a piece of the program ends: it returns `val`; an exception leaves it; it calls
a member function through a null pointer; it blocks for ever in a wait; or the fuel of
a loop of the model is used up. -/
inductive Outcome (α : Type) where
  | ok (val : α) (s : State)
  | thrown (e : Thrown) (s : State)
  | null_deref (s : State)
  | blocked (s : State)
  | out_of_fuel (s : State)
deriving DecidableEq

/-- The state in which a piece of the program ended. -/
def Outcome.state {α : Type} : Outcome α → State
  | .ok _ s => s
  | .thrown _ s => s
  | .null_deref s => s
  | .blocked s => s
  | .out_of_fuel s => s

/-- A piece of the program: a function of the state. -/
def Prog (α : Type) : Type := State → Outcome α

/-- Return a value. -/
def Prog.pure {α : Type} (a : α) : Prog α := fun s => .ok a s

/-- Sequencing: anything but a normal return ends the sequence. -/
def Prog.bind {α β : Type} (m : Prog α) (f : α → Prog β) : Prog β := fun s =>
  match m s with
  | .ok a s' => f a s'
  | .thrown e s' => .thrown e s'
  | .null_deref s' => .null_deref s'
  | .blocked s' => .blocked s'
  | .out_of_fuel s' => .out_of_fuel s'

instance : Monad Prog where
  pure := Prog.pure
  bind := Prog.bind

/-- Record a platform call in the trace. -/
def call (c : Call) : Prog Unit := fun s => .ok () { s with trace := s.trace ++ [c] }

/-- A member call `p->...`: through a null pointer the program does not go on. -/
def deref (p : Handle) : Prog Unit := fun s =>
  if p = nullptr then .null_deref s else .ok () s

/-- The expression `throw std::runtime_error(what)`. -/
def throw_runtime_error {α : Type} (what : String) : Prog α := fun s =>
  .thrown (.runtime_error what) s

/-- Read the global `g`. -/
def getGlobals : Prog Globals := fun s => .ok s.g s

/-- Write the global `g`. -/
def setGlobals (g : Globals) : Prog Unit := fun s => .ok () { s with g := g }

/-- The macro `SafeRelease(ptr)`: release `ptr` when it is not null, then set it to
null; the result is the new value of `ptr`. -/
def SafeRelease (ptr : Handle) : Prog Handle := do
  if ptr ≠ nullptr then
    call (.Release ptr)
  pure nullptr

/-! ## The functions of `main.cpp` -/

/-- The window class name and title, `CLASS_NAME`. -/
def CLASS_NAME : String := "D3D12 Triangle"

/-- `create_window`: register the class, create the window, throw when the window
system returned null, show the window. -/
def create_window (b : Backend) (hinstance : Handle) (cmd_show : Int) (width height : Nat) :
    Prog Handle := do
  call (.RegisterClass CLASS_NAME)
  let window := b.CreateWindowEx CLASS_NAME width height hinstance
  call (.CreateWindowEx CLASS_NAME width height hinstance window)
  if window = nullptr then
    throw_runtime_error "Failed to create Window"
  else
    call (.ShowWindow window cmd_show)
    pure window

/-- The loop of `find_adapter`, from `adapterIndex` on; `adapter` is the local variable
of that name, which `EnumAdapters1` overwrites.  The source loop has no bound, the
model gives it `fuel` iterations. -/
def find_adapter_loop (b : Backend) (factory : Handle) :
    Nat → Nat → Handle → Prog Handle
  | 0, _, _ => fun s => .out_of_fuel s
  | fuel + 1, adapterIndex, _ => do
    deref factory
    let r := b.EnumAdapters1 factory adapterIndex
    call (.EnumAdapters1 factory adapterIndex r.1 r.2)
    let adapter := r.2
    if DXGI_ERROR_NOT_FOUND = r.1 then
      pure adapter
    else
      let hr := b.D3D12CreateDevice_probe adapter D3D_FEATURE_LEVEL_12_1
      call (.D3D12CreateDevice_probe adapter D3D_FEATURE_LEVEL_12_1 hr)
      if SUCCEEDED hr then
        pure adapter
      else
        let adapter ← SafeRelease adapter
        find_adapter_loop b factory fuel ((adapterIndex + 1) % UINT_SIZE) adapter

/-- `find_adapter`. -/
def find_adapter (b : Backend) (fuel : Nat) : Prog Handle := do
  let factory := b.CreateDXGIFactory
  call (.CreateDXGIFactory factory)
  let adapter ← find_adapter_loop b factory fuel 0 nullptr
  let _ ← SafeRelease factory
  pure adapter

/-- `create_device`. -/
def create_device (b : Backend) (adapter : Handle) : Prog Handle := do
  if adapter ≠ nullptr then
    let device := b.D3D12CreateDevice adapter D3D_FEATURE_LEVEL_12_1
    call (.D3D12CreateDevice adapter D3D_FEATURE_LEVEL_12_1 device)
    pure device
  else
    let factory := b.CreateDXGIFactory
    call (.CreateDXGIFactory factory)
    deref factory
    let adapter := b.EnumWarpAdapter factory
    call (.EnumWarpAdapter factory adapter)
    let device := b.D3D12CreateDevice adapter D3D_FEATURE_LEVEL_11_0
    call (.D3D12CreateDevice adapter D3D_FEATURE_LEVEL_11_0 device)
    let _ ← SafeRelease factory
    pure device

/-- `create_cmd_queue`. -/
def create_cmd_queue (b : Backend) (device : Handle) : Prog Handle := do
  let cmd_queue_desc : D3D12_COMMAND_QUEUE_DESC := {}
  deref device
  let cmd_queue := b.CreateCommandQueue device cmd_queue_desc
  call (.CreateCommandQueue device cmd_queue_desc cmd_queue)
  pure cmd_queue

/-- `create_cmd_allocator`. -/
def create_cmd_allocator (b : Backend) (device : Handle) : Prog Handle := do
  deref device
  let cmd_allocator := b.CreateCommandAllocator device D3D12_COMMAND_LIST_TYPE_DIRECT
  call (.CreateCommandAllocator device D3D12_COMMAND_LIST_TYPE_DIRECT cmd_allocator)
  pure cmd_allocator

/-- `create_cmd_list`: create the list, then close it. -/
def create_cmd_list (b : Backend) (device cmd_allocator : Handle) : Prog Handle := do
  deref device
  let cmd_list :=
    b.CreateCommandList device 0 D3D12_COMMAND_LIST_TYPE_DIRECT cmd_allocator nullptr
  call (.CreateCommandList device 0 D3D12_COMMAND_LIST_TYPE_DIRECT cmd_allocator nullptr
    cmd_list)
  deref cmd_list
  call (.Close cmd_list)
  pure cmd_list

/-- The descriptor `swap_chain_desc1` that `create_swap_chain` fills in. -/
def swap_chain_desc1 (num_swap_buffers : Nat) : DXGI_SWAP_CHAIN_DESC1 :=
  let d : DXGI_SWAP_CHAIN_DESC1 := {}
  let d := { d with Width := 512 }
  let d := { d with Height := 512 }
  let d := { d with Scaling := DXGI_SCALING_NONE }
  let d := { d with BufferUsage := DXGI_USAGE_RENDER_TARGET_OUTPUT }
  let d := { d with BufferCount := num_swap_buffers }
  let d := { d with SwapEffect := DXGI_SWAP_EFFECT_DISCARD }
  let d := { d with SampleDesc := { d.SampleDesc with Count := 1 } }
  let d := { d with Format := DXGI_FORMAT_R8G8B8A8_UNORM }
  let d := { d with Stereo := FALSE }
  let d := { d with SampleDesc := { d.SampleDesc with Quality := 0 } }
  let d := { d with Flags := 0 }
  let d := { d with AlphaMode := DXGI_ALPHA_MODE_UNSPECIFIED }
  d

/-- `create_swap_chain`. -/
def create_swap_chain (b : Backend) (wnd_handle cmd_queue : Handle)
    (num_swap_buffers : Nat) : Prog Handle := do
  let factory := b.CreateDXGIFactory2 0
  call (.CreateDXGIFactory2 0 factory)
  let desc := swap_chain_desc1 num_swap_buffers
  deref factory
  let r := b.CreateSwapChainForHwnd factory cmd_queue wnd_handle desc
  call (.CreateSwapChainForHwnd factory cmd_queue wnd_handle desc nullptr nullptr r.1 r.2)
  let swap_chain := r.2
  let _ ← SafeRelease factory
  if FAILED r.1 then
    throw_runtime_error "Failed to create Swap Chain"
  else
    pure swap_chain

/-- The blocking call `WaitForSingleObject(event, INFINITE)` on an event registered
for `value` on `fence`: the clock moves to the tick at which the wait returns. -/
def WaitForSingleObject (b : Backend) (event fence : Handle) (value : Nat) : Prog Unit :=
  fun s =>
    match b.WaitForSingleObject event fence value s.clock with
    | some tick =>
      .ok () { s with trace := s.trace ++ [.WaitForSingleObject event], clock := tick }
    | none => .blocked { s with trace := s.trace ++ [.WaitForSingleObject event] }

/-- The call `fence->GetCompletedValue()`, at the current tick. -/
def GetCompletedValue (b : Backend) (fence : Handle) : Prog Nat := fun s =>
  let v := b.GetCompletedValue fence s.clock
  .ok v { s with trace := s.trace ++ [.GetCompletedValue fence v] }

/-- `wait_for_gpu`. -/
def wait_for_gpu (b : Backend) : Prog Unit := do
  let g ← getGlobals
  let fence := g.fence_value
  deref g.cmd_queue
  call (.Signal g.cmd_queue g.fence fence)
  setGlobals { g with fence_value := (g.fence_value + 1) % UINT64_SIZE }
  deref g.fence
  let completed ← GetCompletedValue b g.fence
  if completed < fence then
    call (.SetEventOnCompletion g.fence fence g.fence_event)
    WaitForSingleObject b g.fence_event g.fence fence

/-- The destructor `~Globals()`. -/
def Globals_destructor : Prog Unit := do
  let g ← getGlobals
  let device ← SafeRelease g.device
  let cmd_queue ← SafeRelease g.cmd_queue
  let cmd_allocator ← SafeRelease g.cmd_allocator
  let cmd_list ← SafeRelease g.cmd_list
  let fence ← SafeRelease g.fence
  let swap_chain ← SafeRelease g.swap_chain
  let render_targets_heap ← SafeRelease g.render_targets_heap
  setGlobals
    { g with
      device := device
      cmd_queue := cmd_queue
      cmd_allocator := cmd_allocator
      cmd_list := cmd_list
      fence := fence
      swap_chain := swap_chain
      render_targets_heap := render_targets_heap }

/-- The `try` block of `WinMain`. -/
def WinMain_try (b : Backend) (fuel : Nat) (hinstance : Handle) (cmd_show : Int) :
    Prog Int := do
  call .CrtSetDbgFlag
  let wnd_handle ← create_window b hinstance cmd_show 512 512
  let adapter ← find_adapter b fuel
  let device ← create_device b adapter
  setGlobals { (← getGlobals) with device := device }
  let cmd_queue ← create_cmd_queue b (← getGlobals).device
  setGlobals { (← getGlobals) with cmd_queue := cmd_queue }
  let cmd_allocator ← create_cmd_allocator b (← getGlobals).device
  setGlobals { (← getGlobals) with cmd_allocator := cmd_allocator }
  let cmd_list ← create_cmd_list b (← getGlobals).device (← getGlobals).cmd_allocator
  setGlobals { (← getGlobals) with cmd_list := cmd_list }
  let swap_chain ←
    create_swap_chain b wnd_handle (← getGlobals).cmd_queue Globals.NUM_SWAP_BUFFERS
  setGlobals { (← getGlobals) with swap_chain := swap_chain }
  let _ ← SafeRelease adapter
  pure 0

/-- The handler `catch (std::exception * e)`: it matches a thrown pointer to an
exception object and yields its message; an object thrown by value is not a pointer
and does not match. -/
def catch_exception_ptr : Thrown → Option String
  | .exception_ptr what => some what
  | .runtime_error _ => none

/-- `WinMain`: the `try` block, and the handler around it.  An exception the handler
does not match leaves `WinMain`.  The source does not use `prev_instance` and
`cmd_line`. -/
def WinMain (b : Backend) (fuel : Nat) (hinstance _prev_instance : Handle)
    (_cmd_line : String) (cmd_show : Int) : Prog Int := fun s =>
  match WinMain_try b fuel hinstance cmd_show s with
  | .thrown e s' =>
    match catch_exception_ptr e with
    | some what => (do call (.OutputDebugString what); pure EXIT_FAILURE : Prog Int) s'
    | none => .thrown e s'
  | r => r

/-- The whole process: `WinMain` from the initial state, then, when it returned, the
destructor of the global `g`.  An exception that left `WinMain` ends the process at
once, without the destructor. -/
def run_process (b : Backend) (fuel : Nat) (hinstance prev_instance : Handle)
    (cmd_line : String) (cmd_show : Int) : Outcome Int :=
  (do let code ← WinMain b fuel hinstance prev_instance cmd_line cmd_show
      Globals_destructor
      pure code : Prog Int) {}

/-- `n` consecutive calls of `wait_for_gpu`. -/
def wait_for_gpu_times (b : Backend) : Nat → Prog Unit
  | 0 => pure ()
  | n + 1 => do
    wait_for_gpu_times b n
    wait_for_gpu b

/-! ## Concrete backends -/

/-- A backend on which every call succeeds: one hardware adapter, handle `20`, that
passes the probe; the fence completes one value per tick. -/
def mock_backend : Backend where
  CreateWindowEx := fun _ _ _ _ => 10
  CreateDXGIFactory := 11
  CreateDXGIFactory2 := fun _ => 12
  EnumAdapters1 := fun _ i => if i = 0 then (S_OK, 20) else (DXGI_ERROR_NOT_FOUND, nullptr)
  EnumWarpAdapter := fun _ => 21
  D3D12CreateDevice_probe := fun _ _ => S_OK
  D3D12CreateDevice := fun _ _ => 30
  CreateCommandQueue := fun _ _ => 31
  CreateCommandAllocator := fun _ _ => 32
  CreateCommandList := fun _ _ _ _ _ => 33
  CreateSwapChainForHwnd := fun _ _ _ _ => (S_OK, 34)
  GetCompletedValue := fun _ tick => tick
  WaitForSingleObject := fun _ _ value now => some (max value now)

/-- A backend without a hardware adapter: enumeration reports "not found" at index 0. -/
def warp_backend : Backend :=
  { mock_backend with EnumAdapters1 := fun _ _ => (DXGI_ERROR_NOT_FOUND, nullptr) }

/-- A backend whose swap-chain creation fails. -/
def swap_chain_failing_backend : Backend :=
  { mock_backend with CreateSwapChainForHwnd := fun _ _ _ _ => (E_FAIL, nullptr) }

/-- A backend whose window creation fails. -/
def window_failing_backend : Backend :=
  { mock_backend with CreateWindowEx := fun _ _ _ _ => nullptr }

/-- A backend whose command-list creation fails. -/
def cmd_list_failing_backend : Backend :=
  { mock_backend with CreateCommandList := fun _ _ _ _ _ => nullptr }


/-- A backend with two hardware adapters: the probe fails for the first, handle `20`,
and passes for the second, handle `22`; enumeration reports "not found" at index 2. -/
def two_adapter_backend : Backend :=
  { mock_backend with
    EnumAdapters1 := fun _ i =>
      if i = 0 then (S_OK, 20) else if i = 1 then (S_OK, 22) else (DXGI_ERROR_NOT_FOUND, nullptr)
    D3D12CreateDevice_probe := fun a _ => if a = 22 then S_OK else E_FAIL }


/-- A state in which the queue, the fence and its event exist and the counter has its
initial value 1. -/
def gpu_ready_state : State :=
  { g := { cmd_queue := 31, fence := 40, fence_event := 41 } }


/-! ## Observations on traces and backends -/

/-- The adapter that `EnumAdapters1` stores for index `i`. -/
def Backend.adapter (b : Backend) (i : Nat) : Handle :=
  (b.EnumAdapters1 b.CreateDXGIFactory i).2

/-- Whether the feature-level-12_1 probe passes for the adapter of index `i`. -/
def Backend.probe_passes (b : Backend) (i : Nat) : Bool :=
  SUCCEEDED (b.D3D12CreateDevice_probe (b.adapter i) D3D_FEATURE_LEVEL_12_1)

/-- A finite enumeration of `n` adapters: the factory exists, `EnumAdapters1` succeeds
with an adapter at the indices below `n`, and at the index `n`, which is a `UINT`, it
reports `DXGI_ERROR_NOT_FOUND` and stores no adapter. -/
def FiniteEnumeration (b : Backend) (n : Nat) : Prop :=
  b.CreateDXGIFactory ≠ nullptr ∧ n < UINT_SIZE ∧
  (∀ i, i < n → SUCCEEDED (b.EnumAdapters1 b.CreateDXGIFactory i).1 = true ∧
    b.adapter i ≠ nullptr) ∧
  b.EnumAdapters1 b.CreateDXGIFactory n = (DXGI_ERROR_NOT_FOUND, nullptr)

/-- The indices passed to `EnumAdapters1`, in the order of the calls. -/
def enumerated (tr : List Call) : List Nat :=
  tr.filterMap fun c =>
    match c with
    | .EnumAdapters1 _ i _ _ => some i
    | _ => none

/-- The calls of one iteration of the loop of `find_adapter` that rejects index `i`:
enumerate, probe, release. -/
def rejected_calls (b : Backend) (i : Nat) : List Call :=
  [.EnumAdapters1 b.CreateDXGIFactory i (b.EnumAdapters1 b.CreateDXGIFactory i).1 (b.adapter i),
   .D3D12CreateDevice_probe (b.adapter i) D3D_FEATURE_LEVEL_12_1
     (b.D3D12CreateDevice_probe (b.adapter i) D3D_FEATURE_LEVEL_12_1),
   .Release (b.adapter i)]

/-- The calls of the iteration that accepts index `k`: enumerate, probe. -/
def accepted_calls (b : Backend) (k : Nat) : List Call :=
  [.EnumAdapters1 b.CreateDXGIFactory k (b.EnumAdapters1 b.CreateDXGIFactory k).1 (b.adapter k),
   .D3D12CreateDevice_probe (b.adapter k) D3D_FEATURE_LEVEL_12_1
     (b.D3D12CreateDevice_probe (b.adapter k) D3D_FEATURE_LEVEL_12_1)]

/-- The call of the iteration that meets the sentinel at index `n`. -/
def sentinel_calls (b : Backend) (n : Nat) : List Call :=
  [.EnumAdapters1 b.CreateDXGIFactory n DXGI_ERROR_NOT_FOUND nullptr]

/-- The change a call makes to the reference count the program holds on `h`: a call
that stores `h` in an output parameter retains it, `Release` gives one reference
back. -/
def Call.retains (h : Handle) : Call → Int
  | .CreateDXGIFactory out => if out = h then 1 else 0
  | .CreateDXGIFactory2 _ out => if out = h then 1 else 0
  | .EnumAdapters1 _ _ _ out => if out = h then 1 else 0
  | .EnumWarpAdapter _ out => if out = h then 1 else 0
  | .D3D12CreateDevice _ _ out => if out = h then 1 else 0
  | .CreateCommandQueue _ _ out => if out = h then 1 else 0
  | .CreateCommandAllocator _ _ out => if out = h then 1 else 0
  | .CreateCommandList _ _ _ _ _ out => if out = h then 1 else 0
  | .CreateSwapChainForHwnd _ _ _ _ _ _ _ out => if out = h then 1 else 0
  | .Release ptr => if ptr = h then -1 else 0
  | _ => 0

/-- The references the program holds on `h` after the calls of a trace. -/
def retained (tr : List Call) (h : Handle) : Int :=
  (tr.map (Call.retains h)).sum

/-- The number of times `h` was released in a trace. -/
def released (tr : List Call) (h : Handle) : Nat :=
  tr.count (.Release h)

/-- The target values passed to `Signal`, in the order of the calls. -/
def signal_targets (tr : List Call) : List Nat :=
  tr.filterMap fun c =>
    match c with
    | .Signal _ _ value => some value
    | _ => none

/-- The buffer counts of the swap chains requested, in the order of the calls. -/
def requested_buffer_counts (tr : List Call) : List Nat :=
  tr.filterMap fun c =>
    match c with
    | .CreateSwapChainForHwnd _ _ _ desc _ _ _ _ => some desc.BufferCount
    | _ => none

/-- The messages passed to the logging sink `OutputDebugString`. -/
def logged (tr : List Call) : List String :=
  tr.filterMap fun c =>
    match c with
    | .OutputDebugString msg => some msg
    | _ => none

/-- A piece of the program is quiet when it passes nothing to the logging sink and
every exception that leaves it was thrown by value, so that a handler for pointers does
not match it. -/
def Quiet {α : Type} (m : Prog α) : Prop :=
  ∀ s, logged (m s).state.trace = logged s.trace ∧
    ∀ e s', m s = .thrown e s' → catch_exception_ptr e = none

/-- A piece of the program returns 0 when 0 is the only value it returns. -/
def ReturnsZero (m : Prog Int) : Prop :=
  ∀ s v s', m s = .ok v s' → v = 0

/-- The fence model of the wait: a wait on an event registered for `value` on `fence`
returns only at a tick at which the completed value of `fence` has reached `value`. -/
def EventModel (b : Backend) : Prop :=
  ∀ event fence value now tick,
    b.WaitForSingleObject event fence value now = some tick →
      value ≤ b.GetCompletedValue fence tick

/-- A backend on which every wait returns. -/
def Responsive (b : Backend) : Prop :=
  ∀ event fence value now, (b.WaitForSingleObject event fence value now).isSome = true

/-- A backend on which every creation call succeeds. -/
def AllSucceed (b : Backend) : Prop :=
  (∀ name w h inst, b.CreateWindowEx name w h inst ≠ nullptr) ∧
  b.CreateDXGIFactory ≠ nullptr ∧
  (∀ flags, b.CreateDXGIFactory2 flags ≠ nullptr) ∧
  (∀ a level, SUCCEEDED (b.D3D12CreateDevice_probe a level) = true) ∧
  (∀ a level, b.D3D12CreateDevice a level ≠ nullptr) ∧
  (∀ d desc, b.CreateCommandQueue d desc ≠ nullptr) ∧
  (∀ d kind, b.CreateCommandAllocator d kind ≠ nullptr) ∧
  (∀ d mask kind alloc init, b.CreateCommandList d mask kind alloc init ≠ nullptr) ∧
  (∀ f q w desc, SUCCEEDED (b.CreateSwapChainForHwnd f q w desc).1 = true ∧
    (b.CreateSwapChainForHwnd f q w desc).2 ≠ nullptr)

/-! ## Sequencing lemmas -/

theorem bind_apply {α β : Type} (m : Prog α) (f : α → Prog β) (s : State) :
    (m >>= f) s =
      match m s with
      | .ok a s' => f a s'
      | .thrown e s' => .thrown e s'
      | .null_deref s' => .null_deref s'
      | .blocked s' => .blocked s'
      | .out_of_fuel s' => .out_of_fuel s' := rfl

theorem pure_apply {α : Type} (a : α) (s : State) : (pure a : Prog α) s = .ok a s := rfl

theorem call_apply (c : Call) (s : State) :
    call c s = .ok () { s with trace := s.trace ++ [c] } := rfl

theorem deref_apply {p : Handle} (h : p ≠ nullptr) (s : State) : deref p s = .ok () s := by
  simp [deref, h]

theorem SafeRelease_apply {p : Handle} (h : p ≠ nullptr) (s : State) :
    SafeRelease p s = .ok nullptr { s with trace := s.trace ++ [.Release p] } := by
  simp [SafeRelease, h, bind_apply, pure_apply, call_apply]

theorem SafeRelease_null (s : State) : SafeRelease nullptr s = .ok nullptr s := by
  simp [SafeRelease, bind_apply, pure_apply]

/-! ## The swap-chain descriptor -/

/-- C4: for every window, queue and buffer count `n`, on a backend whose factory
exists, `create_swap_chain` makes exactly one `CreateSwapChainForHwnd` call, between the
creation and the release of the factory, with that queue and window and a descriptor
whose `BufferCount` is `n`, 512 by 512, `R8G8B8A8_UNORM`, no scaling,
render-target-output usage, discard swap effect, sample count 1 and quality 0, no
stereo, unspecified alpha mode and flags 0; this holds whether the call then returns
or throws. -/
theorem create_swap_chain_descriptor (b : Backend) (wnd_handle cmd_queue n : Nat) (s : State)
    (hf : b.CreateDXGIFactory2 0 ≠ nullptr) :
    (create_swap_chain b wnd_handle cmd_queue n s).state.trace =
      s.trace ++
        [Call.CreateDXGIFactory2 0 (b.CreateDXGIFactory2 0),
         Call.CreateSwapChainForHwnd (b.CreateDXGIFactory2 0) cmd_queue wnd_handle
           { Width := 512, Height := 512, Format := DXGI_FORMAT_R8G8B8A8_UNORM,
             Stereo := FALSE, SampleDesc := { Count := 1, Quality := 0 },
             BufferUsage := DXGI_USAGE_RENDER_TARGET_OUTPUT, BufferCount := n,
             Scaling := DXGI_SCALING_NONE, SwapEffect := DXGI_SWAP_EFFECT_DISCARD,
             AlphaMode := DXGI_ALPHA_MODE_UNSPECIFIED, Flags := 0 }
           nullptr nullptr
           (b.CreateSwapChainForHwnd (b.CreateDXGIFactory2 0) cmd_queue wnd_handle
             (swap_chain_desc1 n)).1
           (b.CreateSwapChainForHwnd (b.CreateDXGIFactory2 0) cmd_queue wnd_handle
             (swap_chain_desc1 n)).2,
         Call.Release (b.CreateDXGIFactory2 0)] := by
  simp only [create_swap_chain, bind_apply, pure_apply, call_apply, deref_apply hf,
    SafeRelease_apply hf]
  split <;> simp [throw_runtime_error, Outcome.state, swap_chain_desc1, pure_apply]

theorem create_swap_chain_descriptor_witness :
    (create_swap_chain mock_backend 10 31 1 {}).state.trace =
      [Call.CreateDXGIFactory2 0 12,
       Call.CreateSwapChainForHwnd 12 31 10
         { Width := 512, Height := 512, Format := DXGI_FORMAT_R8G8B8A8_UNORM,
           Stereo := FALSE, SampleDesc := { Count := 1, Quality := 0 },
           BufferUsage := DXGI_USAGE_RENDER_TARGET_OUTPUT, BufferCount := 1,
           Scaling := DXGI_SCALING_NONE, SwapEffect := DXGI_SWAP_EFFECT_DISCARD,
           AlphaMode := DXGI_ALPHA_MODE_UNSPECIFIED, Flags := 0 }
         nullptr nullptr S_OK 34,
       Call.Release 12] :=
  create_swap_chain_descriptor mock_backend 10 31 1 {} (by decide)


/-! ## The device factory -/

theorem create_device_of_adapter (b : Backend) (a : Handle) (s : State) (ha : a ≠ nullptr) :
    create_device b a s =
      .ok (b.D3D12CreateDevice a D3D_FEATURE_LEVEL_12_1)
        { s with trace := s.trace ++
            [Call.D3D12CreateDevice a D3D_FEATURE_LEVEL_12_1
              (b.D3D12CreateDevice a D3D_FEATURE_LEVEL_12_1)] } := by
  simp [create_device, ha, bind_apply, pure_apply, call_apply]

theorem create_device_of_null (b : Backend) (s : State) (hf : b.CreateDXGIFactory ≠ nullptr) :
    create_device b nullptr s =
      .ok (b.D3D12CreateDevice (b.EnumWarpAdapter b.CreateDXGIFactory) D3D_FEATURE_LEVEL_11_0)
        { s with trace := s.trace ++
            [Call.CreateDXGIFactory b.CreateDXGIFactory,
             Call.EnumWarpAdapter b.CreateDXGIFactory (b.EnumWarpAdapter b.CreateDXGIFactory),
             Call.D3D12CreateDevice (b.EnumWarpAdapter b.CreateDXGIFactory)
               D3D_FEATURE_LEVEL_11_0
               (b.D3D12CreateDevice (b.EnumWarpAdapter b.CreateDXGIFactory)
                 D3D_FEATURE_LEVEL_11_0),
             Call.Release b.CreateDXGIFactory] } := by
  simp [create_device, bind_apply, pure_apply, call_apply, deref_apply hf,
    SafeRelease_apply hf]

/-- C8: given a non-null adapter `a`, `create_device` makes one request, to `a` itself
at feature level 12_1; given null, on a backend whose factory exists, it creates the
factory, obtains the software adapter from it, requests the device from that adapter at
feature level 11_0 and releases the factory.  In both cases it returns normally with
the handle the request stored, which is null when the request failed. -/
theorem create_device_request (b : Backend) (a : Handle) (s : State) :
    (a ≠ nullptr →
      create_device b a s =
        .ok (b.D3D12CreateDevice a D3D_FEATURE_LEVEL_12_1)
          { s with trace := s.trace ++
              [Call.D3D12CreateDevice a D3D_FEATURE_LEVEL_12_1
                (b.D3D12CreateDevice a D3D_FEATURE_LEVEL_12_1)] }) ∧
    (a = nullptr → b.CreateDXGIFactory ≠ nullptr →
      create_device b a s =
        .ok (b.D3D12CreateDevice (b.EnumWarpAdapter b.CreateDXGIFactory) D3D_FEATURE_LEVEL_11_0)
          { s with trace := s.trace ++
              [Call.CreateDXGIFactory b.CreateDXGIFactory,
               Call.EnumWarpAdapter b.CreateDXGIFactory (b.EnumWarpAdapter b.CreateDXGIFactory),
               Call.D3D12CreateDevice (b.EnumWarpAdapter b.CreateDXGIFactory)
                 D3D_FEATURE_LEVEL_11_0
                 (b.D3D12CreateDevice (b.EnumWarpAdapter b.CreateDXGIFactory)
                   D3D_FEATURE_LEVEL_11_0),
               Call.Release b.CreateDXGIFactory] }) :=
  ⟨create_device_of_adapter b a s, fun ha hf => ha ▸ create_device_of_null b s hf⟩

theorem create_device_request_witness :
    create_device mock_backend 20 {} =
        .ok 30 { trace := [Call.D3D12CreateDevice 20 D3D_FEATURE_LEVEL_12_1 30] } ∧
    create_device mock_backend nullptr {} =
        .ok 30 { trace := [Call.CreateDXGIFactory 11, Call.EnumWarpAdapter 11 21,
          Call.D3D12CreateDevice 21 D3D_FEATURE_LEVEL_11_0 30, Call.Release 11] } :=
  ⟨(create_device_request mock_backend 20 {}).1 (by decide),
   (create_device_request mock_backend nullptr {}).2 rfl (by decide)⟩

/-! ## The adapter selector -/

theorem SUCCEEDED_ne_not_found {hr : HRESULT} (h : SUCCEEDED hr = true) :
    DXGI_ERROR_NOT_FOUND ≠ hr := by
  intro heq
  rw [← heq] at h
  simp [SUCCEEDED, DXGI_ERROR_NOT_FOUND] at h

/-- The loop of `find_adapter` started at index `i` of a finite enumeration, when the
probe fails from `i` up to `i + d` and passes at `i + d`: it rejects the indices
`i .. i + d - 1` and accepts `i + d`. -/
theorem find_adapter_loop_accepts (b : Backend) (n : Nat) (h : FiniteEnumeration b n) :
    ∀ (d fuel i : Nat) (adapter : Handle) (s : State), d < fuel → i + d < n →
      b.probe_passes (i + d) = true →
      (∀ j, i ≤ j → j < i + d → b.probe_passes j = false) →
      find_adapter_loop b b.CreateDXGIFactory fuel i adapter s =
        .ok (b.adapter (i + d))
          { s with trace := s.trace ++ (List.range' i d).flatMap (rejected_calls b) ++
              accepted_calls b (i + d) } := by
  obtain ⟨hf, hn, hok, _⟩ := h
  intro d
  induction d with
  | zero =>
    intro fuel i adapter s hfuel hi hp _
    obtain ⟨fuel, rfl⟩ : ∃ f, fuel = f + 1 := ⟨fuel - 1, by omega⟩
    have hne := SUCCEEDED_ne_not_found (hok i (by omega)).1
    simp only [Nat.add_zero] at hp hi ⊢
    simp only [Backend.probe_passes, Backend.adapter] at hp
    simp [find_adapter_loop, bind_apply, pure_apply, call_apply, deref_apply hf, hne, hp,
      accepted_calls, Backend.adapter]
  | succ d ih =>
    intro fuel i adapter s hfuel hi hp hrej
    obtain ⟨fuel, rfl⟩ : ∃ f, fuel = f + 1 := ⟨fuel - 1, by omega⟩
    have hne := SUCCEEDED_ne_not_found (hok i (by omega)).1
    have hnn : (b.EnumAdapters1 b.CreateDXGIFactory i).2 ≠ nullptr := (hok i (by omega)).2
    have hpi := hrej i (Nat.le_refl i) (by omega)
    simp only [Backend.probe_passes, Backend.adapter] at hpi
    have hwrap : (i + 1) % UINT_SIZE = i + 1 := Nat.mod_eq_of_lt (by omega)
    have hnext := ih fuel (i + 1) nullptr
      { s with trace := s.trace ++ rejected_calls b i } (by omega) (by omega)
      (by rw [show i + 1 + d = i + (d + 1) by omega]; exact hp)
      (fun j h1 h2 => hrej j (by omega) (by omega))
    rw [show i + 1 + d = i + (d + 1) by omega] at hnext
    simp only [find_adapter_loop, bind_apply, pure_apply, call_apply, deref_apply hf,
      hne, if_false, hpi, Bool.false_eq_true, SafeRelease_apply hnn, hwrap]
    simp only [rejected_calls, Backend.adapter, List.append_assoc, List.singleton_append,
      List.cons_append, List.nil_append] at hnext
    simp only [List.append_assoc, List.singleton_append, List.cons_append, List.nil_append,
      hnext, List.range'_succ, List.flatMap_cons, rejected_calls, Backend.adapter]


/-- The loop of `find_adapter` started at index `i` of a finite enumeration of `i + d`
adapters, when the probe fails from `i` on: it rejects the indices `i .. i + d - 1`,
meets the sentinel at `i + d` and ends with a null adapter. -/
theorem find_adapter_loop_sentinel (b : Backend) (n : Nat) (h : FiniteEnumeration b n) :
    ∀ (d fuel i : Nat) (adapter : Handle) (s : State), d < fuel → i + d = n →
      (∀ j, i ≤ j → j < i + d → b.probe_passes j = false) →
      find_adapter_loop b b.CreateDXGIFactory fuel i adapter s =
        .ok nullptr
          { s with trace := s.trace ++ (List.range' i d).flatMap (rejected_calls b) ++
              sentinel_calls b n } := by
  obtain ⟨hf, hn, hok, hend⟩ := h
  intro d
  induction d with
  | zero =>
    intro fuel i adapter s hfuel hi _
    obtain ⟨fuel, rfl⟩ : ∃ f, fuel = f + 1 := ⟨fuel - 1, by omega⟩
    simp only [Nat.add_zero] at hi
    subst hi
    simp [find_adapter_loop, bind_apply, pure_apply, call_apply, deref_apply hf, hend,
      sentinel_calls]
  | succ d ih =>
    intro fuel i adapter s hfuel hi hrej
    obtain ⟨fuel, rfl⟩ : ∃ f, fuel = f + 1 := ⟨fuel - 1, by omega⟩
    have hne := SUCCEEDED_ne_not_found (hok i (by omega)).1
    have hnn : (b.EnumAdapters1 b.CreateDXGIFactory i).2 ≠ nullptr := (hok i (by omega)).2
    have hpi := hrej i (Nat.le_refl i) (by omega)
    simp only [Backend.probe_passes, Backend.adapter] at hpi
    have hwrap : (i + 1) % UINT_SIZE = i + 1 := Nat.mod_eq_of_lt (by omega)
    have hnext := ih fuel (i + 1) nullptr
      { s with trace := s.trace ++ rejected_calls b i } (by omega) (by omega)
      (fun j h1 h2 => hrej j (by omega) (by omega))
    simp only [find_adapter_loop, bind_apply, pure_apply, call_apply, deref_apply hf,
      hne, if_false, hpi, Bool.false_eq_true, SafeRelease_apply hnn, hwrap]
    simp only [rejected_calls, Backend.adapter, List.append_assoc, List.singleton_append,
      List.cons_append, List.nil_append] at hnext
    simp only [List.append_assoc, List.singleton_append, List.cons_append, List.nil_append,
      hnext, List.range'_succ, List.flatMap_cons, rejected_calls, Backend.adapter]

/-- The run of `find_adapter` that accepts index `k`. -/
theorem find_adapter_accepts (b : Backend) (n fuel k : Nat) (s : State)
    (h : FiniteEnumeration b n) (hfuel : n < fuel) (hk : k < n)
    (hp : b.probe_passes k = true) (hrej : ∀ j, j < k → b.probe_passes j = false) :
    find_adapter b fuel s =
      .ok (b.adapter k)
        { s with trace := s.trace ++ [Call.CreateDXGIFactory b.CreateDXGIFactory] ++
            (List.range k).flatMap (rejected_calls b) ++ accepted_calls b k ++
            [Call.Release b.CreateDXGIFactory] } := by
  have hloop := find_adapter_loop_accepts b n h k fuel 0 nullptr
    { s with trace := s.trace ++ [Call.CreateDXGIFactory b.CreateDXGIFactory] }
    (by omega) (by omega) (by simpa using hp) (fun j _ h2 => hrej j (by omega))
  simp only [Nat.zero_add] at hloop
  simp only [find_adapter, bind_apply, pure_apply, call_apply, hloop, SafeRelease_apply h.1,
    List.range_eq_range', List.append_assoc]

/-- The run of `find_adapter` that accepts no index. -/
theorem find_adapter_sentinel (b : Backend) (n fuel : Nat) (s : State)
    (h : FiniteEnumeration b n) (hfuel : n < fuel)
    (hrej : ∀ j, j < n → b.probe_passes j = false) :
    find_adapter b fuel s =
      .ok nullptr
        { s with trace := s.trace ++ [Call.CreateDXGIFactory b.CreateDXGIFactory] ++
            (List.range n).flatMap (rejected_calls b) ++ sentinel_calls b n ++
            [Call.Release b.CreateDXGIFactory] } := by
  have hloop := find_adapter_loop_sentinel b n h n fuel 0 nullptr
    { s with trace := s.trace ++ [Call.CreateDXGIFactory b.CreateDXGIFactory] }
    (by omega) (by omega) (fun j _ h2 => hrej j (by omega))
  simp only [find_adapter, bind_apply, pure_apply, call_apply, hloop, SafeRelease_apply h.1,
    List.range_eq_range', List.append_assoc]

theorem enumerated_append (l₁ l₂ : List Call) :
    enumerated (l₁ ++ l₂) = enumerated l₁ ++ enumerated l₂ := by
  simp [enumerated, List.filterMap_append]

theorem enumerated_rejected (b : Backend) (l : List Nat) :
    enumerated (l.flatMap (rejected_calls b)) = l := by
  induction l with
  | nil => rfl
  | cons i l ih =>
    rw [List.flatMap_cons, enumerated_append, ih]
    simp [enumerated, rejected_calls]

/-- C1: over a finite enumeration of `n` adapters, with fuel for `n + 1` iterations,
`find_adapter` returns the adapter of the lowest index `k` whose probe passes, having
enumerated exactly the indices `0 .. k`; when no probe passes it returns null, having
enumerated exactly the indices `0 .. n`, the last being the sentinel. -/
theorem find_adapter_first_passing (b : Backend) (n fuel : Nat) (s : State)
    (h : FiniteEnumeration b n) (hfuel : n < fuel) :
    (∀ k, k < n → b.probe_passes k = true → (∀ j, j < k → b.probe_passes j = false) →
      ∃ s', find_adapter b fuel s = .ok (b.adapter k) s' ∧
        enumerated s'.trace = enumerated s.trace ++ List.range (k + 1)) ∧
    ((∀ j, j < n → b.probe_passes j = false) →
      ∃ s', find_adapter b fuel s = .ok nullptr s' ∧
        enumerated s'.trace = enumerated s.trace ++ List.range (n + 1)) := by
  constructor
  · intro k hk hp hrej
    refine ⟨_, find_adapter_accepts b n fuel k s h hfuel hk hp hrej, ?_⟩
    have e1 : enumerated [Call.CreateDXGIFactory b.CreateDXGIFactory] = [] := rfl
    have e2 : enumerated (accepted_calls b k) = [k] := rfl
    have e3 : enumerated [Call.Release b.CreateDXGIFactory] = [] := rfl
    simp only [enumerated_append, enumerated_rejected, List.range_succ, e1, e2, e3,
      List.append_nil, List.nil_append, List.append_assoc]
  · intro hrej
    refine ⟨_, find_adapter_sentinel b n fuel s h hfuel hrej, ?_⟩
    have e1 : enumerated [Call.CreateDXGIFactory b.CreateDXGIFactory] = [] := rfl
    have e2 : enumerated (sentinel_calls b n) = [n] := rfl
    have e3 : enumerated [Call.Release b.CreateDXGIFactory] = [] := rfl
    simp only [enumerated_append, enumerated_rejected, List.range_succ, e1, e2, e3,
      List.append_nil, List.nil_append, List.append_assoc]


theorem find_adapter_first_passing_witness :
    (FiniteEnumeration two_adapter_backend 2 ∧
      ∃ s', find_adapter two_adapter_backend 3 {} = .ok 22 s' ∧
        enumerated s'.trace = enumerated [] ++ List.range (1 + 1)) ∧
    (FiniteEnumeration warp_backend 0 ∧
      ∃ s', find_adapter warp_backend 1 {} = .ok nullptr s' ∧
        enumerated s'.trace = enumerated [] ++ List.range (0 + 1)) :=
  ⟨⟨by unfold FiniteEnumeration; decide,
    (find_adapter_first_passing two_adapter_backend 2 3 {}
      (by unfold FiniteEnumeration; decide) (by decide)).1 1 (by decide) (by decide)
      (by decide)⟩,
   ⟨by unfold FiniteEnumeration; decide,
    (find_adapter_first_passing warp_backend 0 1 {}
      (by unfold FiniteEnumeration; decide) (by decide)).2 (by decide)⟩⟩

theorem retained_append (l₁ l₂ : List Call) (h : Handle) :
    retained (l₁ ++ l₂) h = retained l₁ h + retained l₂ h := by
  simp [retained, List.map_append, List.sum_append]

theorem retained_rejected (b : Backend) (l : List Nat) (h : Handle) :
    retained (l.flatMap (rejected_calls b)) h = 0 := by
  induction l with
  | nil => rfl
  | cons i l ih =>
    rw [List.flatMap_cons, retained_append, ih]
    simp only [retained, rejected_calls, List.map_cons, List.map_nil, List.sum_cons,
      List.sum_nil, Call.retains]
    split <;> simp

/-- C7: over a finite enumeration of `n` adapters, with fuel for `n + 1` iterations,
the calls of `find_adapter` are: the creation of the factory; for every index below the
accepted index `k` (below `n` when no probe passes), in ascending order, its
enumeration, its probe and one release of its adapter, before the next index is
enumerated; the enumeration and probe of `k` (the enumeration of the sentinel when no
probe passes), with no release of the returned adapter; and one release of the factory.
The reference count of every handle is as before the call, but for one more reference
on the returned adapter. -/
theorem find_adapter_releases (b : Backend) (n fuel : Nat) (s : State)
    (h : FiniteEnumeration b n) (hfuel : n < fuel) :
    (∀ k, k < n → b.probe_passes k = true → (∀ j, j < k → b.probe_passes j = false) →
      ∃ s', find_adapter b fuel s = .ok (b.adapter k) s' ∧
        s'.trace = s.trace ++ [Call.CreateDXGIFactory b.CreateDXGIFactory] ++
          (List.range k).flatMap (rejected_calls b) ++ accepted_calls b k ++
          [Call.Release b.CreateDXGIFactory] ∧
        ∀ p, p ≠ nullptr →
          retained s'.trace p = retained s.trace p + if b.adapter k = p then 1 else 0) ∧
    ((∀ j, j < n → b.probe_passes j = false) →
      ∃ s', find_adapter b fuel s = .ok nullptr s' ∧
        s'.trace = s.trace ++ [Call.CreateDXGIFactory b.CreateDXGIFactory] ++
          (List.range n).flatMap (rejected_calls b) ++ sentinel_calls b n ++
          [Call.Release b.CreateDXGIFactory] ∧
        ∀ p, p ≠ nullptr → retained s'.trace p = retained s.trace p) := by
  constructor
  · intro k hk hp hrej
    refine ⟨_, find_adapter_accepts b n fuel k s h hfuel hk hp hrej, rfl, ?_⟩
    intro p _
    simp only [retained_append, retained_rejected]
    simp only [retained, accepted_calls, List.map_cons, List.map_nil, List.sum_cons,
      List.sum_nil, Call.retains]
    split <;> split <;> simp
  · intro hrej
    refine ⟨_, find_adapter_sentinel b n fuel s h hfuel hrej, rfl, ?_⟩
    intro p hp
    simp only [retained_append, retained_rejected]
    simp only [retained, sentinel_calls, List.map_cons, List.map_nil, List.sum_cons,
      List.sum_nil, Call.retains]
    have hp' : ¬ nullptr = p := fun e => hp e.symm
    split <;> simp [hp']

theorem find_adapter_releases_witness :
    (FiniteEnumeration two_adapter_backend 2 ∧
      ∃ s', find_adapter two_adapter_backend 3 {} = .ok 22 s' ∧
        s'.trace = [] ++ [Call.CreateDXGIFactory 11] ++
          (List.range 1).flatMap (rejected_calls two_adapter_backend) ++
          accepted_calls two_adapter_backend 1 ++ [Call.Release 11] ∧
        ∀ p, p ≠ nullptr →
          retained s'.trace p = retained [] p + if (22 : Handle) = p then 1 else 0) ∧
    (FiniteEnumeration warp_backend 0 ∧
      ∃ s', find_adapter warp_backend 1 {} = .ok nullptr s' ∧
        s'.trace = [] ++ [Call.CreateDXGIFactory 11] ++
          (List.range 0).flatMap (rejected_calls warp_backend) ++
          sentinel_calls warp_backend 0 ++ [Call.Release 11] ∧
        ∀ p, p ≠ nullptr → retained s'.trace p = retained [] p) :=
  ⟨⟨by unfold FiniteEnumeration; decide,
    (find_adapter_releases two_adapter_backend 2 3 {}
      (by unfold FiniteEnumeration; decide) (by decide)).1 1 (by decide) (by decide)
      (by decide)⟩,
   ⟨by unfold FiniteEnumeration; decide,
    (find_adapter_releases warp_backend 0 1 {}
      (by unfold FiniteEnumeration; decide) (by decide)).2 (by decide)⟩⟩


/-! ## The fence wait -/

theorem bind_ok {α β : Type} {m : Prog α} {f : α → Prog β} {s s'' : State} {y : β}
    (h : (m >>= f) s = .ok y s'') : ∃ x s', m s = .ok x s' ∧ f x s' = .ok y s'' := by
  rw [bind_apply] at h
  cases hm : m s with
  | ok x s' => rw [hm] at h; exact ⟨x, s', rfl, h⟩
  | thrown e s' => rw [hm] at h; cases h
  | null_deref s' => rw [hm] at h; cases h
  | blocked s' => rw [hm] at h; cases h
  | out_of_fuel s' => rw [hm] at h; cases h

theorem signal_targets_append (l₁ l₂ : List Call) :
    signal_targets (l₁ ++ l₂) = signal_targets l₁ ++ signal_targets l₂ := by
  simp [signal_targets, List.filterMap_append]

/-- One call of `wait_for_gpu` that returns: the handles of `g` are unchanged, the
counter is incremented modulo `2 ^ 64`, the one `Signal` call it made has the counter's
value on entry as its target, and under the fence model the completed value at the tick
of the return has reached that target. -/
theorem wait_for_gpu_ok (b : Backend) (s s' : State) (hq : s.g.cmd_queue ≠ nullptr)
    (hf : s.g.fence ≠ nullptr) (h : wait_for_gpu b s = .ok () s') :
    s'.g = { s.g with fence_value := (s.g.fence_value + 1) % UINT64_SIZE } ∧
    signal_targets s'.trace = signal_targets s.trace ++ [s.g.fence_value] ∧
    (EventModel b → s.g.fence_value ≤ b.GetCompletedValue s.g.fence s'.clock) := by
  simp only [wait_for_gpu, bind_apply, pure_apply, call_apply, getGlobals, setGlobals,
    deref_apply hq, deref_apply hf, GetCompletedValue] at h
  by_cases hc : b.GetCompletedValue s.g.fence s.clock < s.g.fence_value
  · simp only [hc, if_true, bind_apply, call_apply, WaitForSingleObject] at h
    cases hw : b.WaitForSingleObject s.g.fence_event s.g.fence s.g.fence_value s.clock with
    | none => simp [hw] at h
    | some tick =>
      simp only [hw, Outcome.ok.injEq, true_and] at h
      subst h
      refine ⟨rfl, ?_, fun hm => hm _ _ _ _ _ hw⟩
      simp [signal_targets]
  · simp only [hc, if_false, pure_apply, Outcome.ok.injEq, true_and] at h
    subst h
    refine ⟨rfl, ?_, fun _ => Nat.le_of_not_lt hc⟩
    simp [signal_targets]

/-- On a responsive backend a call of `wait_for_gpu` with a queue and a fence returns. -/
theorem wait_for_gpu_returns (b : Backend) (s : State) (hq : s.g.cmd_queue ≠ nullptr)
    (hf : s.g.fence ≠ nullptr) (hr : Responsive b) : ∃ s', wait_for_gpu b s = .ok () s' := by
  simp only [wait_for_gpu, bind_apply, pure_apply, call_apply, getGlobals, setGlobals,
    deref_apply hq, deref_apply hf, GetCompletedValue]
  by_cases hc : b.GetCompletedValue s.g.fence s.clock < s.g.fence_value
  · simp only [hc, if_true, bind_apply, call_apply, WaitForSingleObject]
    have := hr s.g.fence_event s.g.fence s.g.fence_value s.clock
    obtain ⟨tick, hw⟩ := Option.isSome_iff_exists.mp this
    simp [hw]
  · simp [hc, pure_apply]

/-- C6: `wait_for_gpu`, called with a queue and a fence, under the fence model of the
wait: whenever it returns, the completed value of the fence at the tick of the return is
at least the target, the counter's value on entry; and on a backend on which every wait
returns, it returns. -/
theorem wait_for_gpu_completed (b : Backend) (s : State) (hq : s.g.cmd_queue ≠ nullptr)
    (hf : s.g.fence ≠ nullptr) (hm : EventModel b) :
    (∀ s', wait_for_gpu b s = .ok () s' →
      s.g.fence_value ≤ b.GetCompletedValue s'.g.fence s'.clock) ∧
    (Responsive b → ∃ s', wait_for_gpu b s = .ok () s') := by
  refine ⟨fun s' h => ?_, wait_for_gpu_returns b s hq hf⟩
  obtain ⟨hg, _, hc⟩ := wait_for_gpu_ok b s s' hq hf h
  rw [hg]
  exact hc hm

theorem mock_backend_event_model : EventModel mock_backend := by
  intro event fence value now tick h
  simp only [mock_backend, Option.some.injEq] at h
  subst h
  exact Nat.le_max_left _ _

theorem mock_backend_responsive : Responsive mock_backend := by
  intro event fence value now
  rfl

theorem wait_for_gpu_completed_witness :
    ∃ s', wait_for_gpu mock_backend gpu_ready_state = .ok () s' ∧
      gpu_ready_state.g.fence_value ≤ mock_backend.GetCompletedValue s'.g.fence s'.clock ∧
      s'.clock = 1 := by
  have h := wait_for_gpu_completed mock_backend gpu_ready_state (by decide) (by decide)
    mock_backend_event_model
  obtain ⟨s', hs'⟩ := h.2 mock_backend_responsive
  refine ⟨s', hs', h.1 s' hs', ?_⟩
  have e : wait_for_gpu mock_backend gpu_ready_state =
      .ok () (wait_for_gpu mock_backend gpu_ready_state).state := rfl
  rw [e] at hs'
  cases hs'
  rfl

/-- The calls of `wait_for_gpu_times` that return: the handles of `g` are unchanged, the
counter has advanced by `N` modulo `2 ^ 64`, and the targets passed to `Signal` are the
successive values of the counter. -/
theorem wait_for_gpu_times_ok (b : Backend) (N : Nat) :
    ∀ (s s' : State), s.g.cmd_queue ≠ nullptr → s.g.fence ≠ nullptr →
      s.g.fence_value < UINT64_SIZE → wait_for_gpu_times b N s = .ok () s' →
      s'.g = { s.g with fence_value := (s.g.fence_value + N) % UINT64_SIZE } ∧
      signal_targets s'.trace = signal_targets s.trace ++
        (List.range N).map fun i => (s.g.fence_value + i) % UINT64_SIZE := by
  induction N with
  | zero =>
    intro s s' _ _ hv h
    simp only [wait_for_gpu_times, pure_apply, Outcome.ok.injEq, true_and] at h
    subst h
    simp [Nat.mod_eq_of_lt hv]
  | succ N ih =>
    intro s s' hq hf hv h
    simp only [wait_for_gpu_times] at h
    obtain ⟨_, s₁, h₁, h₂⟩ := bind_ok h
    obtain ⟨hg₁, ht₁⟩ := ih s s₁ hq hf hv h₁
    have hq₁ : s₁.g.cmd_queue ≠ nullptr := by rw [hg₁]; exact hq
    have hf₁ : s₁.g.fence ≠ nullptr := by rw [hg₁]; exact hf
    obtain ⟨hg₂, ht₂, _⟩ := wait_for_gpu_ok b s₁ s' hq₁ hf₁ h₂
    constructor
    · rw [hg₂, hg₁]
      simp [Nat.add_assoc]
    · rw [ht₂, ht₁, hg₁]
      simp [List.range_succ]

/-- On a responsive backend `N` calls of `wait_for_gpu` with a queue and a fence all
return. -/
theorem wait_for_gpu_times_returns (b : Backend) (hr : Responsive b) (N : Nat) :
    ∀ (s : State), s.g.cmd_queue ≠ nullptr → s.g.fence ≠ nullptr →
      s.g.fence_value < UINT64_SIZE → ∃ s', wait_for_gpu_times b N s = .ok () s' := by
  induction N with
  | zero => intro s _ _ _; exact ⟨s, rfl⟩
  | succ N ih =>
    intro s hq hf hv
    obtain ⟨s₁, h₁⟩ := ih s hq hf hv
    obtain ⟨hg₁, _⟩ := wait_for_gpu_times_ok b N s s₁ hq hf hv h₁
    have hq₁ : s₁.g.cmd_queue ≠ nullptr := by rw [hg₁]; exact hq
    have hf₁ : s₁.g.fence ≠ nullptr := by rw [hg₁]; exact hf
    obtain ⟨s₂, h₂⟩ := wait_for_gpu_returns b s₁ hq₁ hf₁ hr
    exact ⟨s₂, by simp only [wait_for_gpu_times, bind_apply, h₁, h₂]⟩


/-- C3 (amended): starting with a queue, a fence and the counter at its initial
value 1, for every `N` below `2 ^ 64`, whenever `N` consecutive calls of `wait_for_gpu`
return, whatever branch each took, the targets they passed to `Signal` are
`1, 2, ..., N`, strictly increasing, and the stored counter is `N + 1` modulo `2 ^ 64`:
`N + 1` when that is below `2 ^ 64`, and `0` after `2 ^ 64 - 1` calls.  On a backend on
which every wait returns, the `N` calls return. -/
theorem wait_for_gpu_targets (b : Backend) (s : State) (N : Nat)
    (hq : s.g.cmd_queue ≠ nullptr) (hf : s.g.fence ≠ nullptr) (hv : s.g.fence_value = 1)
    (hN : N < UINT64_SIZE) :
    (∀ s', wait_for_gpu_times b N s = .ok () s' →
      signal_targets s'.trace = signal_targets s.trace ++ List.range' 1 N ∧
      List.Pairwise (fun x y => x < y) (List.range' 1 N) ∧
      s'.g.fence_value = (if N + 1 < UINT64_SIZE then N + 1 else 0)) ∧
    (Responsive b → ∃ s', wait_for_gpu_times b N s = .ok () s') := by
  have hv' : s.g.fence_value < UINT64_SIZE := by rw [hv]; decide
  refine ⟨fun s' h => ?_, fun hr => wait_for_gpu_times_returns b hr N s hq hf hv'⟩
  obtain ⟨hg, ht⟩ := wait_for_gpu_times_ok b N s s' hq hf hv' h
  refine ⟨?_, List.pairwise_lt_range' 1 N, ?_⟩
  · rw [ht, hv, List.range'_eq_map_range]
    congr 1
    apply List.map_congr_left
    intro i hi
    have : i < N := List.mem_range.mp hi
    exact Nat.mod_eq_of_lt (by omega)
  · rw [hg]
    simp only [hv]
    split
    · rw [Nat.add_comm]; exact Nat.mod_eq_of_lt (by assumption)
    · have : N + 1 = UINT64_SIZE := by omega
      rw [Nat.add_comm, this, Nat.mod_self]

theorem wait_for_gpu_targets_witness :
    ∃ s', wait_for_gpu_times mock_backend 3 gpu_ready_state = .ok () s' ∧
      signal_targets s'.trace = signal_targets gpu_ready_state.trace ++ List.range' 1 3 ∧
      List.Pairwise (fun x y => x < y) (List.range' 1 3) ∧
      s'.g.fence_value = (if 3 + 1 < UINT64_SIZE then 3 + 1 else 0) := by
  have h := wait_for_gpu_targets mock_backend gpu_ready_state 3 (by decide) (by decide) rfl
    (by decide)
  obtain ⟨s', hs'⟩ := h.2 mock_backend_responsive
  exact ⟨s', hs', h.1 s' hs'⟩

/-- C3 (counterexample): `N = 2 ^ 64 - 1` lies in the claimed range, and after that many
calls from the initial counter value 1 the stored counter is `0`, not `N + 1`. -/
theorem wait_for_gpu_counter_wraps :
    1 ≤ 2 ^ 64 - 1 ∧ 2 ^ 64 - 1 < 2 ^ 64 ∧ gpu_ready_state.g.fence_value = 1 ∧
    ∃ s', wait_for_gpu_times mock_backend (2 ^ 64 - 1) gpu_ready_state = .ok () s' ∧
      s'.g.fence_value = 0 ∧ s'.g.fence_value ≠ (2 ^ 64 - 1) + 1 := by
  refine ⟨by norm_num, by norm_num, rfl, ?_⟩
  obtain ⟨s', h⟩ := wait_for_gpu_times_returns mock_backend mock_backend_responsive
    (2 ^ 64 - 1) gpu_ready_state (by decide) (by decide) (by decide)
  obtain ⟨hg, _⟩ := wait_for_gpu_times_ok mock_backend (2 ^ 64 - 1) gpu_ready_state s'
    (by decide) (by decide) (by decide) h
  have h0 : s'.g.fence_value = 0 := by
    rw [hg]
    show (1 + (2 ^ 64 - 1)) % UINT64_SIZE = 0
    norm_num [UINT64_SIZE]
  exact ⟨s', h, h0, by rw [h0]; norm_num⟩


/-! ## The entry point -/

theorem FAILED_of_SUCCEEDED {hr : HRESULT} (h : SUCCEEDED hr = true) : FAILED hr = false := by
  simp only [SUCCEEDED, decide_eq_true_eq] at h
  simp only [FAILED, decide_eq_false_iff_not]
  exact Int.not_lt.mpr h

theorem requested_buffer_counts_append (l₁ l₂ : List Call) :
    requested_buffer_counts (l₁ ++ l₂) =
      requested_buffer_counts l₁ ++ requested_buffer_counts l₂ := by
  simp [requested_buffer_counts, List.filterMap_append]

/-- C5 (amended): on every backend on which every creation call succeeds, `WinMain`
run from the initial state returns 0 and leaves `device`, `cmd_queue`, `cmd_allocator`,
`cmd_list` and `swap_chain` non-null; the fence handle is still null; and exactly one
swap chain was requested, with buffer count 1. -/
theorem WinMain_bring_up (b : Backend) (fuel : Nat) (hinstance prev_instance : Handle)
    (cmd_line : String) (cmd_show : Int)
    (h : AllSucceed b) (hfuel : 1 ≤ fuel) :
    ∃ s', WinMain b fuel hinstance prev_instance cmd_line cmd_show {} = .ok 0 s' ∧
      s'.g.device ≠ nullptr ∧ s'.g.cmd_queue ≠ nullptr ∧ s'.g.cmd_allocator ≠ nullptr ∧
      s'.g.cmd_list ≠ nullptr ∧ s'.g.swap_chain ≠ nullptr ∧ s'.g.fence = nullptr ∧
      requested_buffer_counts s'.trace = [1] := by
  obtain ⟨hw, hf, hf2, hp, hd, hq, ha, hl, hs⟩ := h
  obtain ⟨fuel, rfl⟩ : ∃ f, fuel = f + 1 := ⟨fuel - 1, by omega⟩
  have hfail := fun f q w desc => FAILED_of_SUCCEEDED (hs f q w desc).1
  have hsc := fun f q w desc => (hs f q w desc).2
  by_cases h1 : DXGI_ERROR_NOT_FOUND = (b.EnumAdapters1 b.CreateDXGIFactory 0).1 <;>
  by_cases h2 : (b.EnumAdapters1 b.CreateDXGIFactory 0).2 = nullptr <;>
  simp [WinMain, WinMain_try, create_window, find_adapter, find_adapter_loop,
    create_device, create_cmd_queue, create_cmd_allocator, create_cmd_list,
    create_swap_chain, SafeRelease, bind_apply, pure_apply, call_apply, deref, getGlobals,
    setGlobals, throw_runtime_error, hw, hf, hf2, hp, hd, hq, ha, hl, hfail, hsc, h1, h2,
    requested_buffer_counts, swap_chain_desc1, Globals.NUM_SWAP_BUFFERS]


theorem mock_backend_all_succeed : AllSucceed mock_backend := by
  refine ⟨?_, ?_, ?_, ?_, ?_, ?_, ?_, ?_, ?_⟩ <;> intros <;>
    simp [mock_backend, nullptr, SUCCEEDED, S_OK]

theorem WinMain_bring_up_witness :
    ∃ s', WinMain mock_backend 1 1 0 "" 1 {} = .ok 0 s' ∧
      s'.g.device ≠ nullptr ∧ s'.g.cmd_queue ≠ nullptr ∧ s'.g.cmd_allocator ≠ nullptr ∧
      s'.g.cmd_list ≠ nullptr ∧ s'.g.swap_chain ≠ nullptr ∧ s'.g.fence = nullptr ∧
      requested_buffer_counts s'.trace = [1] :=
  WinMain_bring_up mock_backend 1 1 0 "" 1 mock_backend_all_succeed (by decide)

/-- C5 (counterexample): on `mock_backend` every creation call succeeds, and `WinMain`
returns 0 with the fence handle of `g` null, not non-null. -/
theorem WinMain_leaves_fence_null :
    AllSucceed mock_backend ∧
    ∃ s', WinMain mock_backend 1 1 0 "" 1 {} = .ok 0 s' ∧ ¬ (s'.g.fence ≠ nullptr) :=
  ⟨mock_backend_all_succeed, _, rfl, by decide⟩

/-- C9 (the code at the failing inputs): through process shutdown, on a backend without
a hardware adapter the software adapter, handle `21`, that `create_device` obtained is
still retained and was never released; when swap-chain creation fails the process ends
by the exception with the adapter, handle `20`, and the device, handle `30`, retained
and never released.  On `mock_backend`, where a hardware adapter is found and nothing
throws, no handle is retained at shutdown. -/
theorem run_process_leaks :
    (∃ s', run_process warp_backend 1 1 0 "" 1 = .ok 0 s' ∧
      retained s'.trace 21 = 1 ∧ released s'.trace 21 = 0) ∧
    (∃ s', run_process swap_chain_failing_backend 1 1 0 "" 1 =
        .thrown (.runtime_error "Failed to create Swap Chain") s' ∧
      retained s'.trace 20 = 1 ∧ released s'.trace 20 = 0 ∧
      retained s'.trace 30 = 1 ∧ released s'.trace 30 = 0) ∧
    (∃ s', run_process mock_backend 1 1 0 "" 1 = .ok 0 s' ∧
      ∀ p ∈ [11, 12, 20, 30, 31, 32, 33, 34],
        retained s'.trace p = 0 ∧ released s'.trace p = 1) :=
  ⟨⟨_, rfl, by decide, by decide⟩, ⟨_, rfl, by decide, by decide, by decide, by decide⟩,
    ⟨_, rfl, by decide⟩⟩

/-- C10 (the code at the failing input): with a non-null device, `create_cmd_queue` and
`create_cmd_allocator` return the handle their creation call stored, null when it
failed; `create_cmd_list`, when `CreateCommandList` failed and stored null, calls
`Close` through that null handle. -/
theorem create_cmd_list_null_deref (b : Backend) (device cmd_allocator : Handle) (s : State)
    (hd : device ≠ nullptr) :
    create_cmd_queue b device s =
      .ok (b.CreateCommandQueue device {})
        { s with trace := s.trace ++
            [Call.CreateCommandQueue device {} (b.CreateCommandQueue device {})] } ∧
    create_cmd_allocator b device s =
      .ok (b.CreateCommandAllocator device D3D12_COMMAND_LIST_TYPE_DIRECT)
        { s with trace := s.trace ++
            [Call.CreateCommandAllocator device D3D12_COMMAND_LIST_TYPE_DIRECT
              (b.CreateCommandAllocator device D3D12_COMMAND_LIST_TYPE_DIRECT)] } ∧
    (b.CreateCommandList device 0 D3D12_COMMAND_LIST_TYPE_DIRECT cmd_allocator nullptr = nullptr →
      create_cmd_list b device cmd_allocator s =
        .null_deref
          { s with trace := s.trace ++
              [Call.CreateCommandList device 0 D3D12_COMMAND_LIST_TYPE_DIRECT cmd_allocator
                nullptr nullptr] }) := by
  refine ⟨?_, ?_, fun hl => ?_⟩
  · simp [create_cmd_queue, bind_apply, pure_apply, call_apply, deref_apply hd]
  · simp [create_cmd_allocator, bind_apply, pure_apply, call_apply, deref_apply hd]
  · simp [create_cmd_list, bind_apply, call_apply, hd, hl, deref]

theorem create_cmd_list_null_deref_witness :
    create_cmd_list cmd_list_failing_backend 30 32 {} =
      .null_deref
        { trace := [Call.CreateCommandList 30 0 D3D12_COMMAND_LIST_TYPE_DIRECT 32 nullptr
            nullptr] } :=
  (create_cmd_list_null_deref cmd_list_failing_backend 30 32 {} (by decide)).2.2 rfl


/-! ## The handler of `WinMain` -/

theorem logged_append (l₁ l₂ : List Call) : logged (l₁ ++ l₂) = logged l₁ ++ logged l₂ := by
  simp [logged, List.filterMap_append]

theorem quiet_pure {α : Type} (a : α) : Quiet (pure a : Prog α) := by
  intro s
  exact ⟨rfl, fun e s' h => by cases h⟩

theorem quiet_call (c : Call) (hc : logged [c] = []) : Quiet (call c) := by
  intro s
  refine ⟨?_, fun e s' h => by cases h⟩
  simp [call, Outcome.state, logged_append, hc]

theorem quiet_deref (p : Handle) : Quiet (deref p) := by
  intro s
  unfold deref
  split
  · exact ⟨rfl, fun e s' h => by cases h⟩
  · exact ⟨rfl, fun e s' h => by cases h⟩

theorem quiet_getGlobals : Quiet getGlobals := by
  intro s
  exact ⟨rfl, fun e s' h => by cases h⟩

theorem quiet_setGlobals (g : Globals) : Quiet (setGlobals g) := by
  intro s
  exact ⟨rfl, fun e s' h => by cases h⟩

theorem quiet_throw_runtime_error {α : Type} (what : String) :
    Quiet (throw_runtime_error what : Prog α) := by
  intro s
  refine ⟨rfl, fun e s' h => ?_⟩
  simp only [throw_runtime_error, Outcome.thrown.injEq] at h
  rw [← h.1]
  rfl

theorem quiet_bind {α β : Type} {m : Prog α} {f : α → Prog β} (hm : Quiet m)
    (hf : ∀ a, Quiet (f a)) : Quiet (m >>= f) := by
  intro s
  obtain ⟨hl, ht⟩ := hm s
  rw [bind_apply]
  cases h : m s with
  | ok a s₁ =>
    rw [h] at hl
    obtain ⟨hl₂, ht₂⟩ := hf a s₁
    exact ⟨hl₂.trans hl, ht₂⟩
  | thrown e s₁ =>
    rw [h] at hl
    refine ⟨hl, fun e' s' h' => ?_⟩
    simp only [Outcome.thrown.injEq] at h'
    rw [← h'.1]
    exact ht e s₁ h
  | null_deref s₁ => rw [h] at hl; exact ⟨hl, fun e s' h' => by cases h'⟩
  | blocked s₁ => rw [h] at hl; exact ⟨hl, fun e s' h' => by cases h'⟩
  | out_of_fuel s₁ => rw [h] at hl; exact ⟨hl, fun e s' h' => by cases h'⟩

theorem quiet_SafeRelease (p : Handle) : Quiet (SafeRelease p) := by
  intro s
  by_cases h : p = nullptr
  · subst h
    rw [SafeRelease_null]
    exact ⟨rfl, fun e s' h => by cases h⟩
  · rw [SafeRelease_apply h]
    refine ⟨?_, fun e s' h => by cases h⟩
    simp only [Outcome.state, logged_append]
    exact List.append_nil _

theorem quiet_create_window (b : Backend) (hinstance : Handle) (cmd_show : Int)
    (width height : Nat) : Quiet (create_window b hinstance cmd_show width height) := by
  unfold create_window
  refine quiet_bind (quiet_call _ rfl) fun _ => quiet_bind (quiet_call _ rfl) fun _ => ?_
  split
  · exact quiet_throw_runtime_error _
  · exact quiet_bind (quiet_call _ rfl) fun _ => quiet_pure _

theorem quiet_find_adapter_loop (b : Backend) (factory : Handle) :
    ∀ (fuel adapterIndex : Nat) (adapter : Handle),
      Quiet (find_adapter_loop b factory fuel adapterIndex adapter) := by
  intro fuel
  induction fuel with
  | zero =>
    intro i a s
    exact ⟨rfl, fun e s' h => by cases h⟩
  | succ fuel ih =>
    intro i a
    unfold find_adapter_loop
    refine quiet_bind (quiet_deref _) fun _ => quiet_bind (quiet_call _ rfl) fun _ => ?_
    split
    · exact quiet_pure _
    · refine quiet_bind (quiet_call _ rfl) fun _ => ?_
      split
      · exact quiet_pure _
      · exact quiet_bind (quiet_SafeRelease _) fun _ => ih _ _

theorem quiet_find_adapter (b : Backend) (fuel : Nat) : Quiet (find_adapter b fuel) := by
  unfold find_adapter
  exact quiet_bind (quiet_call _ rfl) fun _ =>
    quiet_bind (quiet_find_adapter_loop b _ _ _ _) fun _ =>
      quiet_bind (quiet_SafeRelease _) fun _ => quiet_pure _

theorem quiet_create_device (b : Backend) (adapter : Handle) :
    Quiet (create_device b adapter) := by
  unfold create_device
  split
  · exact quiet_bind (quiet_call _ rfl) fun _ => quiet_pure _
  · exact quiet_bind (quiet_call _ rfl) fun _ => quiet_bind (quiet_deref _) fun _ =>
      quiet_bind (quiet_call _ rfl) fun _ => quiet_bind (quiet_call _ rfl) fun _ =>
        quiet_bind (quiet_SafeRelease _) fun _ => quiet_pure _

theorem quiet_create_cmd_queue (b : Backend) (device : Handle) :
    Quiet (create_cmd_queue b device) := by
  unfold create_cmd_queue
  exact quiet_bind (quiet_deref _) fun _ => quiet_bind (quiet_call _ rfl) fun _ => quiet_pure _

theorem quiet_create_cmd_allocator (b : Backend) (device : Handle) :
    Quiet (create_cmd_allocator b device) := by
  unfold create_cmd_allocator
  exact quiet_bind (quiet_deref _) fun _ => quiet_bind (quiet_call _ rfl) fun _ => quiet_pure _

theorem quiet_create_cmd_list (b : Backend) (device cmd_allocator : Handle) :
    Quiet (create_cmd_list b device cmd_allocator) := by
  unfold create_cmd_list
  exact quiet_bind (quiet_deref _) fun _ => quiet_bind (quiet_call _ rfl) fun _ =>
    quiet_bind (quiet_deref _) fun _ => quiet_bind (quiet_call _ rfl) fun _ => quiet_pure _

theorem quiet_create_swap_chain (b : Backend) (wnd_handle cmd_queue : Handle) (n : Nat) :
    Quiet (create_swap_chain b wnd_handle cmd_queue n) := by
  unfold create_swap_chain
  refine quiet_bind (quiet_call _ rfl) fun _ => quiet_bind (quiet_deref _) fun _ =>
    quiet_bind (quiet_call _ rfl) fun _ => quiet_bind (quiet_SafeRelease _) fun _ => ?_
  split
  · exact quiet_throw_runtime_error _
  · exact quiet_pure _

theorem quiet_WinMain_try (b : Backend) (fuel : Nat) (hinstance : Handle) (cmd_show : Int) :
    Quiet (WinMain_try b fuel hinstance cmd_show) := by
  unfold WinMain_try
  refine quiet_bind (quiet_call _ rfl) fun _ => ?_
  refine quiet_bind (quiet_create_window _ _ _ _ _) fun _ => ?_
  refine quiet_bind (quiet_find_adapter _ _) fun _ => ?_
  refine quiet_bind (quiet_create_device _ _) fun _ => ?_
  refine quiet_bind quiet_getGlobals fun _ => quiet_bind (quiet_setGlobals _) fun _ => ?_
  refine quiet_bind quiet_getGlobals fun _ =>
    quiet_bind (quiet_create_cmd_queue _ _) fun _ => ?_
  refine quiet_bind quiet_getGlobals fun _ => quiet_bind (quiet_setGlobals _) fun _ => ?_
  refine quiet_bind quiet_getGlobals fun _ =>
    quiet_bind (quiet_create_cmd_allocator _ _) fun _ => ?_
  refine quiet_bind quiet_getGlobals fun _ => quiet_bind (quiet_setGlobals _) fun _ => ?_
  refine quiet_bind quiet_getGlobals fun _ => quiet_bind quiet_getGlobals fun _ =>
    quiet_bind (quiet_create_cmd_list _ _ _) fun _ => ?_
  refine quiet_bind quiet_getGlobals fun _ => quiet_bind (quiet_setGlobals _) fun _ => ?_
  refine quiet_bind quiet_getGlobals fun _ =>
    quiet_bind (quiet_create_swap_chain _ _ _ _) fun _ => ?_
  refine quiet_bind quiet_getGlobals fun _ => quiet_bind (quiet_setGlobals _) fun _ => ?_
  exact quiet_bind (quiet_SafeRelease _) fun _ => quiet_pure _

theorem returnsZero_bind {α : Type} {m : Prog α} {f : α → Prog Int}
    (hf : ∀ a, ReturnsZero (f a)) : ReturnsZero (m >>= f) := by
  intro s v s' h
  obtain ⟨a, s₁, _, h₂⟩ := bind_ok h
  exact hf a s₁ v s' h₂

theorem returnsZero_WinMain_try (b : Backend) (fuel : Nat) (hinstance : Handle)
    (cmd_show : Int) : ReturnsZero (WinMain_try b fuel hinstance cmd_show) := by
  unfold WinMain_try
  iterate 24 refine returnsZero_bind fun _ => ?_
  intro s v s' h
  cases h
  rfl


theorem WinMain_eq_try (b : Backend) (fuel : Nat) (hinstance prev_instance : Handle)
    (cmd_line : String) (cmd_show : Int) (s : State) :
    WinMain b fuel hinstance prev_instance cmd_line cmd_show s =
      WinMain_try b fuel hinstance cmd_show s := by
  unfold WinMain
  cases h : WinMain_try b fuel hinstance cmd_show s with
  | thrown e s' =>
    have hnone := (quiet_WinMain_try b fuel hinstance cmd_show s).2 e s' h
    simp only [hnone]
  | ok v s' => rfl
  | null_deref s' => rfl
  | blocked s' => rfl
  | out_of_fuel s' => rfl

/-- C2 (the code, at every input and at the failing inputs): the handler of `WinMain`
catches pointers, and `create_window` and `create_swap_chain` throw by value, so the
handler never runs: on every backend `WinMain` ends as its `try` block ends, passes
nothing to `OutputDebugString` and never returns `EXIT_FAILURE`.  When
`CreateSwapChainForHwnd` fails, and when `CreateWindowEx` returns null, the
`std::runtime_error` leaves `WinMain` uncaught. -/
theorem WinMain_exception_escapes (b : Backend) (fuel : Nat) (hinstance prev_instance : Handle)
    (cmd_line : String) (cmd_show : Int) (s : State) :
    WinMain b fuel hinstance prev_instance cmd_line cmd_show s =
      WinMain_try b fuel hinstance cmd_show s ∧
    logged (WinMain b fuel hinstance prev_instance cmd_line cmd_show s).state.trace =
      logged s.trace ∧
    (∀ s', WinMain b fuel hinstance prev_instance cmd_line cmd_show s ≠ .ok EXIT_FAILURE s') ∧
    (∃ s', WinMain swap_chain_failing_backend 1 1 0 "" 1 {} =
        .thrown (.runtime_error "Failed to create Swap Chain") s') ∧
    (∃ s', WinMain window_failing_backend 1 1 0 "" 1 {} =
        .thrown (.runtime_error "Failed to create Window") s') := by
  have he := WinMain_eq_try b fuel hinstance prev_instance cmd_line cmd_show s
  refine ⟨he, ?_, ?_, ⟨_, rfl⟩, ⟨_, rfl⟩⟩
  · rw [he]
    exact (quiet_WinMain_try b fuel hinstance cmd_show s).1
  · intro s' h
    rw [he] at h
    have := returnsZero_WinMain_try b fuel hinstance cmd_show s _ s' h
    simp [EXIT_FAILURE] at this


end D3D12Triangle
